import Mathlib

/-!
Verification development for the medvision-ai video/live GI-analysis pipeline.

The definitions below are a shallow embedding of the Python sources:
  * a small backtracking regular-expression engine mirroring the semantics of
    the CPython `re` module on the exact patterns compiled by the sources
    (leftmost match, greedy and lazy stars with backtracking, DOTALL classes,
    optional case-insensitive literals, zero-width lookahead, `$` matching at
    the end of the input or just before a final newline, `re.sub` replacing
    every non-overlapping leftmost match);
  * `gi.py`: `clean_medgemma_output`, `extract_structured_answer`, the
    per-entry Finding construction and export-archive entry list of
    `save_live_session`;
  * `video_processor.py`: `VideoProcessor._parse_analysis` (dictionary
    modelled as an association list, `None` fall-through modelled as
    `Option.none`), the per-frame record built by `analyze_frames_batch`,
    the sampling loop of `extract_frames`, `generate_summary` together with
    the one-summary-per-session uniqueness constraint of `models.py`, and the
    entry list written by `create_export_bundle`;
  * `tasks.py`: the sequence of progress values reported by
    `process_video_task`.

Machine reals (Python floats) are modelled by exact arithmetic (`Nat`
division for truncating `int(...)` conversions, `ℚ` for confidence scores);
every concrete input used in a theorem below was chosen so that the floating
point computation of the source is exact, hence agrees with the model.
-/

set_option maxRecDepth 1000000

/-! ## A tiny backtracking regex engine (CPython `re` semantics) -/

/-- Regular-expression abstract form covering exactly the constructs used by
the patterns compiled in `gi.py` and `video_processor.py`: literals,
character classes, concatenation, alternation, greedy and lazy Kleene star,
greedy option, capturing groups, zero-width lookahead and `$`. -/
inductive RE where
  | eps
  | lit (c : Char)
  | cls (p : Char → Bool)
  | seq (a b : RE)
  | alt (a b : RE)
  | starG (a : RE)
  | starL (a : RE)
  | quest (a : RE)
  | group (a : RE)
  | look (a : RE)
  | eos

open RE

/-- Fuel-indexed continuation-passing matcher.  The continuation receives the
unconsumed suffix and the captures completed so far; alternatives are explored
in CPython's backtracking order (left alternative first, greedy star takes the
longest repetition first, lazy star the shortest, `quest` prefers presence).
A star iteration must consume input, as CPython's engine abandons an empty
repetition.  `eos` is non-MULTILINE `$`: end of input or just before a final
newline.  The fuel only bounds recursion depth; it is chosen large enough in
`reFuel` below that it is never exhausted on the inputs considered. -/
def mrun : Nat → RE → List Char → List (List Char) →
    (List Char → List (List Char) → Option (List (List Char))) →
    Option (List (List Char))
  | 0, _, _, _, _ => none
  | _ + 1, .eps, s, caps, k => k s caps
  | _ + 1, .lit c, s, caps, k =>
      match s with
      | [] => none
      | c₂ :: rest => if c₂ = c then k rest caps else none
  | _ + 1, .cls p, s, caps, k =>
      match s with
      | [] => none
      | c₂ :: rest => if p c₂ then k rest caps else none
  | n + 1, .seq a b, s, caps, k =>
      mrun n a s caps (fun s₂ caps₂ => mrun n b s₂ caps₂ k)
  | n + 1, .alt a b, s, caps, k =>
      match mrun n a s caps k with
      | some r => some r
      | none => mrun n b s caps k
  | n + 1, .starG a, s, caps, k =>
      match mrun n a s caps (fun s₂ caps₂ =>
          if s₂.length < s.length then mrun n (.starG a) s₂ caps₂ k else none) with
      | some r => some r
      | none => k s caps
  | n + 1, .starL a, s, caps, k =>
      match k s caps with
      | some r => some r
      | none => mrun n a s caps (fun s₂ caps₂ =>
          if s₂.length < s.length then mrun n (.starL a) s₂ caps₂ k else none)
  | n + 1, .quest a, s, caps, k =>
      match mrun n a s caps k with
      | some r => some r
      | none => k s caps
  | n + 1, .group a, s, caps, k =>
      mrun n a s caps (fun s₂ caps₂ => k s₂ (caps₂ ++ [s.take (s.length - s₂.length)]))
  | n + 1, .look a, s, caps, k =>
      match mrun n a s caps (fun _ _ => some []) with
      | some _ => k s caps
      | none => none
  | _ + 1, .eos, s, caps, k =>
      if s = [] ∨ s = ['\n'] then k s caps else none

/-- Structural size of a pattern, used to choose sufficient fuel. -/
def reSize : RE → Nat
  | .eps | .lit _ | .cls _ | .eos => 1
  | .seq a b | .alt a b => reSize a + reSize b + 1
  | .starG a | .starL a | .quest a | .group a | .look a => reSize a + 1

/-- Generous fuel bound for `mrun` on pattern `r` and input `s`. -/
def reFuel (r : RE) (s : List Char) : Nat :=
  (s.length + 2) * (s.length + 2) * (reSize r + 2)

/-- Match `r` against a prefix of `s` (CPython `match` at one position),
returning the list of captures of the first match found. -/
def reMatchCaps (r : RE) (s : List Char) : Option (List (List Char)) :=
  mrun (reFuel r s) r s [] (fun _ caps => some caps)

/-- Match `r` against a prefix of `s`, returning the unconsumed suffix of the
first match found (used to implement `re.sub`). -/
def reMatchRest (r : RE) (s : List Char) : Option (List Char) :=
  mrun (reFuel r s) r s [] (fun rest _ => some [rest]) |>.map
    (fun l => l.headD [])

/-- CPython `pattern.search`: try each start position from the left, return
the captures of the first (leftmost) match. -/
def reSearch (r : RE) (s : List Char) : Option (List (List Char)) :=
  match reMatchCaps r s with
  | some caps => some caps
  | none =>
      match s with
      | [] => none
      | _ :: t => reSearch r t

/-- CPython `re.sub(pattern, repl, s)`: replace every non-overlapping
leftmost match; a zero-width match is replaced and scanning advances one
character, exactly as in CPython. -/
def reSubAll (r : RE) (repl : List Char) (s : List Char) : List Char :=
  go (s.length + 1) s
where
  go : Nat → List Char → List Char
    | 0, rest => rest
    | _ + 1, [] => []
    | n + 1, c :: t =>
        match reMatchRest r (c :: t) with
        | some rest =>
            if rest.length < t.length + 1 then repl ++ go n rest
            else repl ++ c :: go n t
        | none => c :: go n t

/-- `re.sub` for a pattern anchored with `^` in non-MULTILINE mode: the
pattern can only ever match at position zero, so at most the leading match is
replaced. -/
def reSubStart (r : RE) (repl : List Char) (s : List Char) : List Char :=
  match reMatchRest r s with
  | some rest => repl ++ rest
  | none => s

/-- Concatenation of a list of patterns. -/
def reCat (l : List RE) : RE := l.foldr RE.seq RE.eps

/-- Case-sensitive literal string. -/
def reStr (s : String) : RE := reCat (s.data.map RE.lit)

/-- Case-insensitive literal string (the `re.IGNORECASE` flag). -/
def reStrCI (s : String) : RE :=
  reCat (s.data.map (fun c => RE.cls (fun x => x.toLower = c.toLower)))

/-- Python `\s` on the ASCII range: space, tab, newline, carriage return,
vertical tab, form feed. -/
def isPySpace (c : Char) : Bool :=
  c = ' ' || c = '\t' || c = '\n' || c = '\r' || c = '\x0b' || c = '\x0c'

/-- Pattern `\s*`. -/
def wsStar : RE := RE.starG (RE.cls isPySpace)

/-- Pattern `\s+`. -/
def wsPlus : RE := RE.seq (RE.cls isPySpace) wsStar

/-- Pattern `.` under `re.DOTALL`: any character, newline included. -/
def anyC : RE := RE.cls (fun _ => true)

/-- Pattern `(.*?)` under `re.DOTALL`: lazily captured run of characters. -/
def lazyGroup : RE := RE.group (RE.starL anyC)

/-! ## String helpers mirroring Python `str` methods -/

/-- Python `str.strip()` (whitespace from both ends). -/
def pyStrip (s : List Char) : List Char :=
  ((s.dropWhile isPySpace).reverse.dropWhile isPySpace).reverse

/-- Python `str.lower()` (ASCII-relevant part). -/
def lowerL (s : List Char) : List Char := s.map Char.toLower

/-- Python `needle in haystack` on strings: substring occurrence test. -/
def containsSub (needle : List Char) : List Char → Bool
  | [] => needle.isEmpty
  | c :: t => needle.isPrefixOf (c :: t) || containsSub needle t

/-- Python `s.replace(old, new)` with non-empty `old`: replace every
non-overlapping occurrence from the left.  The fuel argument of the worker is
initialised to the input length and every step consumes at least one
character, so it is never exhausted. -/
def replaceSub (old new s : List Char) : List Char :=
  go (s.length + 1) s
where
  go : Nat → List Char → List Char
    | 0, rest => rest
    | _ + 1, [] => []
    | n + 1, c :: t =>
        if old ≠ [] ∧ old.isPrefixOf (c :: t) then
          new ++ go n ((c :: t).drop old.length)
        else c :: go n t

/-- Python `s.split('\n')`. -/
def splitNl (s : List Char) : List (List Char) :=
  go s []
where
  go : List Char → List Char → List (List Char)
    | [], acc => [acc.reverse]
    | c :: t, acc => if c = '\n' then acc.reverse :: go t [] else go t (c :: acc)

/-! ## `gi.py`: output cleaning and structured extraction -/

/-- Lookahead `(?=Finding:|Location:|Risk Level:|$)` shared by the prompt-echo
patterns of `clean_medgemma_output` (`gi.py` lines 32-41), compiled with
`re.IGNORECASE`. -/
def promptLookahead : RE :=
  RE.look (RE.alt (reStrCI "Finding:") (RE.alt (reStrCI "Location:")
    (RE.alt (reStrCI "Risk Level:") RE.eos)))

/-- One prompt-echo pattern `<p>.*?(?=Finding:|Location:|Risk Level:|$)`
under `re.DOTALL | re.IGNORECASE`. -/
def promptPat (p : String) : RE :=
  reCat [reStrCI p, RE.starL anyC, promptLookahead]

/-- The prompt prefixes listed in `clean_medgemma_output` (`gi.py` lines
32-41); `\[System\]` is the escaped literal `[System]`. -/
def promptPrefixes : List String :=
  ["You are MedGemma", "Analyze this", "Return ONLY structured output",
   "[System]", "Do NOT provide", "Be cautious", "assisting an endoscopist",
   "<start_of_image>"]

/-- Empty-template pattern of `clean_medgemma_output` (`gi.py` lines 50-53),
`re.IGNORECASE`. -/
def emptyStructureRE : RE :=
  reCat [reStrCI "Finding:", wsStar, RE.lit '\n', wsStar,
         reStrCI "Location:", wsStar, RE.lit '\n', wsStar,
         reStrCI "Risk Level (Low/Medium/High):", wsStar, RE.lit '\n', wsStar,
         reStrCI "Suggested Next Step:", wsStar, RE.lit '\n']

/-- Inline empty-template pattern (`gi.py` lines 57-60), anchored with `^`,
`re.IGNORECASE`. -/
def emptyStructureInlineRE : RE :=
  reCat [reStrCI "Finding:", wsStar, reStrCI "Location:", wsStar,
         reStrCI "Risk Level (Low/Medium/High):", wsStar,
         reStrCI "Suggested Next Step:", wsStar]

/-- Blank-line collapse pattern `\n\s*\n` (`gi.py` line 64). -/
def blankCollapseRE : RE := reCat [RE.lit '\n', wsStar, RE.lit '\n']

/-- `clean_medgemma_output` (`gi.py` lines 25-67): strip echoed prompt
fragments, remove the unfilled label skeleton, collapse blank lines, strip
surrounding whitespace. -/
def clean_medgemma_output (raw : List Char) : List Char :=
  let cleaned := promptPrefixes.foldl (fun s p => reSubAll (promptPat p) [] s) raw
  let cleaned := reSubAll emptyStructureRE [] cleaned
  let cleaned := reSubStart emptyStructureInlineRE [] cleaned
  let cleaned := reSubAll blankCollapseRE ['\n'] cleaned
  pyStrip cleaned

/-- The structured-block pattern of `extract_structured_answer` (`gi.py`
lines 81-87), `re.DOTALL | re.IGNORECASE`: four labelled fields, an optional
`Level` word and parenthetical hint after `Risk`, and either `Next Step` or
`Action` as the final label. -/
def giPattern : RE :=
  reCat [reStrCI "Finding:", wsStar, lazyGroup, wsStar, RE.lit '\n',
         wsStar, reStrCI "Location:", wsStar, lazyGroup, wsStar, RE.lit '\n',
         wsStar, reStrCI "Risk",
         RE.quest (RE.seq wsPlus (reStrCI "Level")),
         RE.quest (RE.seq wsStar (reStrCI "(Low/Medium/High)")),
         reStrCI ":", wsStar, lazyGroup, wsStar, RE.lit '\n',
         wsStar, reStrCI "Suggested ",
         RE.alt (reStrCI "Next Step") (reStrCI "Action"),
         reStrCI ":", wsStar, lazyGroup,
         RE.alt (RE.lit '\n') RE.eos]

/-- The prompt-artifact vocabulary rejected by `extract_structured_answer`
(`gi.py` line 103). -/
def giArtifactWords : List String := ["medgemma", "analyze", "endoscopist"]

/-- The artifact test of `extract_structured_answer` (`gi.py` line 103):
some artifact word occurs in the lower-cased Finding field. -/
def giArtifactHit (finding : List Char) : Bool :=
  giArtifactWords.any (fun w => containsSub w.data (lowerL finding))

/-- The four-line answer assembled by `extract_structured_answer` (`gi.py`
lines 107-112). -/
def giJoin (finding location risk action : List Char) : List Char :=
  "Finding: ".data ++ finding ++ "\nLocation: ".data ++ location ++
  "\nRisk Level: ".data ++ risk ++ "\nSuggested Action: ".data ++ action

/-- The validation-and-assembly step of `extract_structured_answer`
(`gi.py` lines 91-112) on the four (then stripped) captured groups: reject
when the Finding field is empty or shorter than 3 characters, reject when it
contains prompt-artifact vocabulary, otherwise return the formatted
answer. -/
def extractValidated (g1 g2 g3 g4 : List Char) : List Char :=
  if pyStrip g1 = [] ∨ (pyStrip g1).length < 3 then []
  else if giArtifactHit (pyStrip g1) then []
  else giJoin (pyStrip g1) (pyStrip g2) (pyStrip g3) (pyStrip g4)

/-- `extract_structured_answer` (`gi.py` lines 69-115): clean the text, look
for the structured block, validate the Finding field, and return the
formatted four-line answer, or the empty string as the rejection outcome. -/
def extract_structured_answer (text : List Char) : List Char :=
  match reSearch giPattern (clean_medgemma_output text) with
  | some [g1, g2, g3, g4] => extractValidated g1 g2 g3 g4
  | _ => []

/-! ## `gi.py`: live-path Finding construction (`save_live_session`) -/

/-- One `FrameAnalysis` row as `save_live_session` builds it for a buffered
timeline entry (`gi.py` lines 369-447).  `confidence_score` is the literal
`0.85` of line 446; the numeric column is modelled by `ℚ`. -/
structure LiveAnalysisRec where
  finding : String
  anatomical_location : String
  risk_level : String
  suggested_action : String
  raw_output : String
  confidence_score : ℚ
deriving DecidableEq, Repr

/-- The field-reassembly loop over `structured.split('\n')` of
`save_live_session` (`gi.py` lines 382-396): an `if/elif` chain on the line
label, keeping the last occurrence of each.  Result order: finding, location,
risk level, action. -/
def livePartsFold (parts : List (List Char)) :
    List Char × List Char × List Char × List Char :=
  parts.foldl (fun acc part =>
    if "Finding:".data.isPrefixOf part then
      (pyStrip (replaceSub "Finding:".data [] part), acc.2.1, acc.2.2.1, acc.2.2.2)
    else if "Location:".data.isPrefixOf part then
      (acc.1, pyStrip (replaceSub "Location:".data [] part), acc.2.2.1, acc.2.2.2)
    else if "Risk Level:".data.isPrefixOf part then
      (acc.1, acc.2.1, pyStrip (replaceSub "Risk Level:".data [] part), acc.2.2.2)
    else if "Suggested Action:".data.isPrefixOf part then
      (acc.1, acc.2.1, acc.2.2.1, pyStrip (replaceSub "Suggested Action:".data [] part))
    else acc) ([], [], [], [])

/-- The Finding persisted by `save_live_session` for one buffered timeline
entry (`gi.py` lines 378-447): run the Extractor; on success re-parse the
four labelled lines; on rejection fall back to the first 500 characters of
the raw entry with location `Unknown`, risk `low` and no suggested action.
The stored risk level is lower-cased (line 443) and the stored confidence is
always `0.85` (line 446). -/
def live_save_structured (entry : String) : LiveAnalysisRec :=
  let p := livePartsFold (splitNl (extract_structured_answer entry.data))
  { finding := p.1.asString
    anatomical_location := p.2.1.asString
    risk_level := (lowerL p.2.2.1).asString
    suggested_action := p.2.2.2.asString
    raw_output := entry
    confidence_score := 0.85 }

/-- See `live_save_structured` for the branch taken when the Extractor
succeeded. -/
def live_save_entry (entry : String) : LiveAnalysisRec :=
  if extract_structured_answer entry.data ≠ [] then live_save_structured entry
  else
    { finding := (entry.data.take 500).asString
      anatomical_location := "Unknown"
      risk_level := "low"
      suggested_action := ""
      raw_output := entry
      confidence_score := 0.85 }

/-- Entry names written into the live-path export archive by
`save_live_session` (`gi.py` lines 516-645), in `writestr`/`write` order:
metadata, summary, findings CSV, findings JSON, the optional `frames/`
images (when requested and at least one frame image was saved; each saved
path contributes its base name under `frames/`), and the plain-text report.
`savedFramePaths` holds the base names of the saved frame images, all of
which are taken to exist on disk. -/
def save_live_session_entries (includeFrames : Bool)
    (savedFramePaths : List String) : List String :=
  ["metadata.json", "summary.json", "findings.csv", "findings.json"]
  ++ (if includeFrames ∧ savedFramePaths ≠ [] then
        savedFramePaths.map (fun p => "frames/" ++ p)
      else [])
  ++ ["report.txt"]

/-! ## `video_processor.py`: `_parse_analysis` and `analyze_frames_batch` -/

/-- Values stored in the Python dictionary built by `_parse_analysis`, plus
Python `None` for an absent key read through `dict.get`. -/
inductive PyVal where
  | pnone
  | str (s : String)
  | rat (q : ℚ)
  | strList (l : List String)
deriving DecidableEq, Repr

/-- A Python dictionary as an insertion-ordered association list. -/
abbrev PyDict := List (String × PyVal)

/-- Python `d[k] = v`: replace in place when the key exists, append
otherwise. -/
def dictSet (d : PyDict) (k : String) (v : PyVal) : PyDict :=
  if (d.lookup k).isSome then d.map (fun p => if p.1 = k then (k, v) else p)
  else d ++ [(k, v)]

/-- Python `d.get(k, dflt)`. -/
def dictGetD (d : PyDict) (k : String) (dflt : PyVal) : PyVal :=
  (d.lookup k).getD dflt

/-- The default dictionary of `_parse_analysis` (`video_processor.py` lines
234-241). -/
def parseAnalysisInit : PyDict :=
  [("finding", .str "No abnormal finding"), ("location", .str "Unknown"),
   ("risk_level", .str "low"), ("confidence", .rat 0.75),
   ("features", .strList []), ("suggested_action", .str "Continue inspection")]

/-- The structured-block pattern of `_parse_analysis` (`video_processor.py`
lines 247-253), `re.DOTALL`, case-sensitive. -/
def videoPattern : RE :=
  reCat [reStr "Finding:", wsStar, lazyGroup, RE.lit '\n',
         reStr "Location:", wsStar, lazyGroup, RE.lit '\n',
         reStr "Risk Level:", wsStar, lazyGroup, RE.lit '\n',
         reStr "Suggested Action:", wsStar, lazyGroup,
         RE.alt (RE.lit '\n') RE.eos]

/-- The fixed feature vocabulary of `_parse_analysis` (`video_processor.py`
line 273). -/
def featureKeywords : List String :=
  ["erythema", "ulcer", "polyp", "inflammation", "bleeding", "lesion"]

/-- `VideoProcessor._parse_analysis` (`video_processor.py` lines 233-278).
An empty raw output returns the default dictionary.  When the structured
block matches, the four fields, the risk-derived confidence and the keyword
scan of the raw text (under key `features`) are filled in and the dictionary
is returned.  When a non-empty raw output does not match, control falls off
the end of the function — the comment `fallback to your original logic` has
no code under it — so Python returns `None`, modelled as `Option.none`. -/
def parseAnalysisDict (raw : String) (g1 g2 g3 g4 : List Char) : PyDict :=
  dictSet
    (if containsSub "high".data (lowerL g3) then
      dictSet
        (dictSet
          (dictSet
            (dictSet (dictSet parseAnalysisInit "finding" (.str (pyStrip g1).asString))
              "location" (.str (pyStrip g2).asString))
            "suggested_action" (.str (pyStrip g4).asString))
          "risk_level" (.str "high"))
        "confidence" (.rat 0.85)
    else if containsSub "medium".data (lowerL g3) then
      dictSet
        (dictSet
          (dictSet
            (dictSet (dictSet parseAnalysisInit "finding" (.str (pyStrip g1).asString))
              "location" (.str (pyStrip g2).asString))
            "suggested_action" (.str (pyStrip g4).asString))
          "risk_level" (.str "medium"))
        "confidence" (.rat 0.80)
    else
      dictSet
        (dictSet
          (dictSet (dictSet parseAnalysisInit "finding" (.str (pyStrip g1).asString))
            "location" (.str (pyStrip g2).asString))
          "suggested_action" (.str (pyStrip g4).asString))
        "risk_level" (.str "low"))
    "features"
    (.strList (featureKeywords.filter (fun kw => containsSub kw.data (lowerL raw.data))))

/-- See `parseAnalysisDict` for the dictionary built on a successful match:
the four fields (`risk_text` is lower-cased but not stripped), the
risk-derived `risk_level`/`confidence` pair (substring tests `high` then
`medium`, defaulting to `low` with the initial confidence `0.75`), and the
keyword scan of the raw text stored under key `features`. -/
def parse_analysis (raw : String) : Option PyDict :=
  if raw = "" then some parseAnalysisInit
  else
    match reSearch videoPattern raw.data with
    | some [g1, g2, g3, g4] => some (parseAnalysisDict raw g1 g2 g3 g4)
    | _ => none

/-- The `FrameAnalysis` row built by `analyze_frames_batch`
(`video_processor.py` lines 183-195) from the parsed dictionary.
`detected_features` holds the value serialised by `json.dumps`, modelled as
the list itself. -/
structure FrameAnalysisRec where
  finding : PyVal
  anatomical_location : PyVal
  risk_level : PyVal
  confidence_score : PyVal
  detected_features : PyVal
  suggested_action : PyVal
  raw_output : String
deriving DecidableEq, Repr

/-- One frame step of `analyze_frames_batch` (`video_processor.py` lines
163-199): parse the raw model output and build the persisted row through
`parsed.get(...)` reads.  When `_parse_analysis` returned `None`, the read
`parsed.get("finding")` raises `AttributeError`, aborting the task; the
abort is modelled as `Option.none`.  Note the row reads key
`detected_features`, which `_parse_analysis` never sets (it fills
`features`), so the default `[]` is always taken. -/
def analyzeOne (raw : String) : Option FrameAnalysisRec :=
  match parse_analysis raw with
  | none => none
  | some d =>
      some { finding := dictGetD d "finding" .pnone
             anatomical_location := dictGetD d "location" .pnone
             risk_level := dictGetD d "risk_level" .pnone
             confidence_score := dictGetD d "confidence" (.rat 0.75)
             detected_features := dictGetD d "detected_features" (.strList [])
             suggested_action := dictGetD d "suggested_action" .pnone
             raw_output := raw }

/-- `analyze_frames_batch` over the raw model outputs of the session's
unanalyzed frames, in frame order: one persisted row per frame unless some
frame's parse returns `None`, in which case the `AttributeError` aborts the
whole run (`Option.none`). -/
def analyze_frames_batch (raws : List String) : Option (List FrameAnalysisRec) :=
  raws.mapM analyzeOne

/-! ## `video_processor.py`: frame sampling (`extract_frames`) -/

/-- Zero-padded rendering of `%02d`. -/
def pad2 (n : Nat) : String := if n < 10 then "0" ++ toString n else toString n

/-- Zero-padded rendering of `%03d`. -/
def pad3 (n : Nat) : String :=
  if n < 10 then "00" ++ toString n
  else if n < 100 then "0" ++ toString n
  else toString n

/-- The `HH:MM:SS.mmm` rendering of `extract_frames` (`video_processor.py`
lines 82-86). -/
def formatTimestamp (ms : Nat) : String :=
  pad2 (ms / 3600000) ++ ":" ++ pad2 (ms % 3600000 / 60000) ++ ":" ++
  pad2 (ms % 60000 / 1000) ++ "." ++ pad3 (ms % 1000)

/-- One sampled frame as recorded by `extract_frames` (`video_processor.py`
lines 104-111): its sequential index, stream-relative timestamp in
milliseconds, and the formatted timestamp. -/
structure SampledFrame where
  frame_index : Nat
  timestamp_ms : Nat
  timestamp_formatted : String
deriving DecidableEq, Repr

/-- The sampling interval `int(original_fps / target_fps)`
(`video_processor.py` line 66), for integral frame rates. -/
def video_frame_interval (originalFps targetFps : Nat) : Nat :=
  originalFps / targetFps

/-- The sampling loop of `extract_frames` (`video_processor.py` lines
68-129): walk source frame indices `0, …, totalFrames - 1`, emit a frame
whenever the index is divisible by the sampling interval, give it the next
sequential index and the truncated millisecond timestamp
`int((frame_index / original_fps) * 1000)` (exact-arithmetic model of the
float computation). -/
def extract_frames_samples (totalFrames originalFps frameInterval : Nat) :
    List SampledFrame :=
  (List.range totalFrames).foldl (fun acc frameIndex =>
    if frameIndex % frameInterval = 0 then
      let ms := frameIndex * 1000 / originalFps
      acc ++ [⟨acc.length, ms, formatTimestamp ms⟩]
    else acc) []

/-! ## `video_processor.py`: `generate_summary` and the summary table -/

/-- The projection of a persisted `FrameAnalysis` row read by
`generate_summary` (`video_processor.py` lines 289-323): location, finding
text and risk level, as stored strings. -/
structure FindingRow where
  anatomical_location : String
  finding : String
  risk_level : String
deriving DecidableEq, Repr

/-- The key-findings loop of `generate_summary` (`video_processor.py` lines
302-312): keep medium/high-risk rows, deduplicated by
`location ++ "_" ++ finding[:50]` in first-seen order, recording
`location ++ ": " ++ finding[:100]`. -/
def keyFindingsOf (analyses : List FindingRow) : List String :=
  (analyses.foldl (fun (acc : List String × List String) a =>
    if a.risk_level = "high" ∨ a.risk_level = "medium" then
      let key := a.anatomical_location ++ "_" ++ (a.finding.data.take 50).asString
      if key ∈ acc.1 then acc
      else (acc.1 ++ [key],
            acc.2 ++ [a.anatomical_location ++ ": " ++ (a.finding.data.take 100).asString])
    else acc) ([], [])).2

/-- `VideoProcessor._generate_overall_summary` (`video_processor.py` lines
331-356).  The anatomical regions are the distinct non-empty locations;
Python renders a `set` here, whose iteration order is unspecified — it is
modelled in first-occurrence order. -/
def generate_overall_summary (analyses : List FindingRow) : String :=
  if analyses = [] then "No significant findings."
  else
    let locations := (analyses.map (·.anatomical_location)).filter (· ≠ "") |>.dedup
    (pyStrip ("\nEducational Summary:\n\nTotal frames analyzed: " ++
      toString analyses.length ++ "\nHigh-risk findings: " ++
      toString ((analyses.filter (·.risk_level = "high")).length) ++
      "\nMedium-risk findings: " ++
      toString ((analyses.filter (·.risk_level = "medium")).length) ++
      "\nAnatomical regions examined: " ++
      (if locations ≠ [] then String.intercalate ", " locations else "Various") ++
      "\n\nThis educational analysis highlights areas that may warrant further attention during the procedure. \nAll findings should be interpreted by a qualified physician in the full clinical context.\n").data).asString

/-- A `SessionSummary` row (`models.py` lines 181-196).  `key_findings`
holds the value serialised by `json.dumps`, modelled as the list itself. -/
structure SummaryRow where
  session_id : String
  overall_summary : String
  key_findings : List String
  total_frames_analyzed : Nat
  high_risk_findings_count : Nat
deriving DecidableEq, Repr

/-- The `SessionSummary` row built by `generate_summary`
(`video_processor.py` lines 318-324): key findings capped at the first 10. -/
def mkSummaryRow (sessionId : String) (analyses : List FindingRow) : SummaryRow :=
  { session_id := sessionId
    overall_summary := generate_overall_summary analyses
    key_findings := (keyFindingsOf analyses).take 10
    total_frames_analyzed := analyses.length
    high_risk_findings_count := (analyses.filter (·.risk_level = "high")).length }

/-- Failure outcomes of `generate_summary`: the explicit `ValueError` on an
empty analysis set (`video_processor.py` line 295), and the integrity error
raised at commit by the `unique=True` constraint on
`session_summaries.session_id` (`models.py` line 185) when a summary for the
session already exists. -/
inductive DbError where
  | noAnalyses
  | uniqueViolation
deriving DecidableEq, Repr

/-- `VideoProcessor.generate_summary` (`video_processor.py` lines 281-329)
against the session's summary table: build the summary row and `db.add` +
`db.commit` it.  The insert of a second row for the same session violates
the one-summary-per-session unique constraint, so the commit fails; nothing
in the function deletes or updates the existing row. -/
def generate_summary (sessionId : String) (analyses : List FindingRow)
    (summaries : List SummaryRow) : Except DbError (SummaryRow × List SummaryRow) :=
  if analyses = [] then .error .noAnalyses
  else if summaries.any (fun r => r.session_id = sessionId) then .error .uniqueViolation
  else .ok (mkSummaryRow sessionId analyses, summaries ++ [mkSummaryRow sessionId analyses])

/-! ## `video_processor.py`: export bundle entries and progress -/

/-- Entry names of the file-path export archive built by
`create_export_bundle` (`video_processor.py` lines 358-468): the files
written into the temporary directory — the original video when the session
has one, `frame_analysis.json`, `summary.txt` when a summary row exists, and
`metadata.json` — are zipped (every temporary file except the archive
itself; the zip iterates directory order, so only membership is
meaningful). -/
def create_export_bundle_entries (hasVideo hasSummary : Bool) : List String :=
  (if hasVideo then ["original_video.mp4"] else [])
  ++ ["frame_analysis.json"]
  ++ (if hasSummary then ["summary.txt"] else [])
  ++ ["metadata.json"]

/-- The progress values reported by `create_export_bundle` through its
callback (`video_processor.py` lines 388-466), in order. -/
def create_export_bundle_progress : List Nat := [85, 90, 95, 100]

/-! ## `tasks.py`: progress reported by `process_video_task` -/

/-- Progress callbacks issued by `extract_frames` (`video_processor.py`
lines 114-122): after every tenth sampled frame, report
`int((frame_index / total_frames) * 30)` (exact-arithmetic model of the
float computation). -/
def extract_frames_progress (totalFrames frameInterval : Nat) : List Nat :=
  ((List.range totalFrames).foldl (fun (acc : Nat × List Nat) frameIndex =>
    if frameIndex % frameInterval = 0 then
      let extracted := acc.1 + 1
      (extracted,
       if extracted % 10 = 0 then acc.2 ++ [frameIndex * 30 / totalFrames] else acc.2)
    else acc) (0, [])).2

/-- Number of frames the sampler emits. -/
def sampledFrameCount (totalFrames frameInterval : Nat) : Nat :=
  ((List.range totalFrames).filter (fun i => i % frameInterval = 0)).length

/-- Python `range(0, stop, step)` for positive `step`. -/
def pyRangeStep (stop step : Nat) : List Nat :=
  (List.range ((stop + step - 1) / step)).map (fun k => k * step)

/-- Progress callbacks issued by `analyze_frames_batch`
(`video_processor.py` lines 160-210): after each batch over the unanalyzed
frames, report `30 + int((i / total_frames) * 50)` for the batch start index
`i` (exact-arithmetic model of the float computation). -/
def analyze_frames_progress (totalUnanalyzed batchSize : Nat) : List Nat :=
  (pyRangeStep totalUnanalyzed batchSize).map (fun i => 30 + i * 50 / totalUnanalyzed)

/-- The sequence of values `process_video_task` (`tasks.py` lines 89-206)
hands to its progress reporter at its successive reporting points, in
program order, on a source with `totalFrames` frames, sampling interval
`frameInterval` and batch size `batchSize`: the sampler's callbacks, the
analysis callbacks, the explicit updates to `80` (before summary
generation) and `90` (before export), the export callbacks `85, 90, 95,
100`, and the final `processing_progress = 100` assignment.  These are the
values the task body attempts to report; none of them is ever committed,
because the reporter itself aborts at its first call — see
`process_video_task_observed`. -/
def process_video_attempted_updates (totalFrames frameInterval batchSize : Nat) :
    List Nat :=
  extract_frames_progress totalFrames frameInterval
  ++ analyze_frames_progress (sampledFrameCount totalFrames frameInterval) batchSize
  ++ [80, 90]
  ++ create_export_bundle_progress
  ++ [100]

/-- Abort reasons of `process_video_task` relevant to progress reporting:
`attributeError` models the `AttributeError` raised by evaluating
`self._update_progress`, since `_update_progress` is a module-level
function (`tasks.py` line 209, at column 0, after the task body) and is
never attached to `DatabaseTask` or to the task object. -/
inductive TaskAbort where
  | attributeError
deriving DecidableEq, Repr

/-- The progress updates actually committed by one `process_video_task` run
together with its abort reason, following the task body in program order
(`tasks.py` lines 124-156).  Every reporting point evaluates
`self._update_progress`, which raises `AttributeError` before any database
write, and the task's `except` block marks the session failed, so no
progress value is ever committed.  The first failing evaluation is: during
`extract_frames` (at the 10th sampled frame) when the sampler fires a
callback; otherwise after the first analysis batch when there is one;
otherwise the unconditional `self._update_progress(session_id, 80)` at
line 146. -/
def process_video_task_observed (totalFrames frameInterval batchSize : Nat) :
    List Nat × Option TaskAbort :=
  if extract_frames_progress totalFrames frameInterval ≠ [] then
    ([], some .attributeError)
  else if analyze_frames_progress (sampledFrameCount totalFrames frameInterval)
      batchSize ≠ [] then
    ([], some .attributeError)
  else
    ([], some .attributeError)

/-! ## Concrete scenario inputs -/

/-- A non-empty raw model output without a structured four-field block. -/
def c1UnmatchedRaw : String := "The image shows gastric mucosa."

/-- The Erythema/Antrum scenario raw text of the specification. -/
def c3ErythemaRaw : String :=
  "Finding: Erythema noted\nLocation: Antrum\nRisk Level: Medium\nSuggested Action: Biopsy recommended"

/-- A buffered live timeline entry whose structured block carries risk
level `Low`. -/
def c4LiveLowEntry : String :=
  "[10:00:05] Finding: Small polyp\nLocation: Antrum\nRisk Level: Low\nSuggested Action: Monitor"

/-- A buffered live timeline entry without a structured block. -/
def c4LiveFreeEntry : String := "[10:00:11] routine antral view, nothing remarkable"

/-- A persisted medium-risk analysis row. -/
def c5Row : FindingRow := ⟨"Antrum", "Erythema noted", "medium"⟩

/-- A raw model text containing a four-field block whose Finding field is
empty. -/
def c7EmptyFindingRaw : String :=
  "Finding: \nLocation: Antrum\nRisk Level: High\nSuggested Action: Targeted biopsy\n"

/-- The unfilled label skeleton of the specification. -/
def c8Skeleton : String :=
  "Finding:\nLocation:\nRisk Level (Low/Medium/High):\nSuggested Next Step:\n"

/-- A buffered live timeline entry holding only free text. -/
def c10FreeEntry : String :=
  "[10:00:00] The mucosa appears smooth with no focal abnormality seen."

/-! ## Claims -/

/-- C1: the claim that batch analysis persists exactly one Finding per
processed frame — using the extractor defaults when extraction rejects —
fails on the code: for non-empty raw text the structured pattern does not
match, `_parse_analysis` falls off its end and returns `None` (only the
comment `fallback to your original logic` stands where the fallback should
be), and the subsequent `parsed.get` raises `AttributeError`, aborting the
batch with no Finding persisted and no frame marked analyzed.  The default
dictionary is only reachable for empty raw text. -/
theorem C1_unmatched_text_aborts_batch :
    parse_analysis c1UnmatchedRaw = none ∧
    analyze_frames_batch [c1UnmatchedRaw] = none ∧
    parse_analysis "" = some parseAnalysisInit :=
  ⟨rfl, rfl, rfl⟩

/-- C2: the claim that progress is reported monotonically non-decreasing
through the stage bands fails on the code because progress reporting is
broken outright: `_update_progress` is a module-level function (`tasks.py`
line 209), never an attribute of the task object, so the first evaluation
of `self._update_progress` raises `AttributeError` and aborts the run with
no progress value ever committed — on the 30-second 30 fps scenario the
run dies at the sampler's 10th emitted frame, and indeed no run on any
input ever reports an update in any band (the task would additionally hand
its reporter 85 after 90, so even the attempted values are not
band-ordered). -/
theorem C2_progress_reporting_aborts :
    process_video_task_observed 900 30 10 = ([], some .attributeError) ∧
    process_video_attempted_updates 900 30 10 =
      [9, 19, 29, 30, 46, 63, 80, 90, 85, 90, 95, 100, 100] ∧
    ∀ totalFrames frameInterval batchSize,
      process_video_task_observed totalFrames frameInterval batchSize =
        ([], some .attributeError) := by
  refine ⟨rfl, rfl, ?_⟩
  intro totalFrames frameInterval batchSize
  unfold process_video_task_observed
  split
  · rfl
  · split
    · rfl
    · rfl

/-- C3: the claim that the persisted `detectedFeatures` equals the keyword
scan of the raw text fails on the code: `_parse_analysis` stores the scan
under dictionary key `features`, but `analyze_frames_batch` persists
`parsed.get("detected_features", [])`, a key that is never set — on the
Erythema/Antrum scenario the parse computes `["erythema"]` while the
persisted row carries the empty feature list. -/
theorem C3_detected_features_key_mismatch :
    (parse_analysis c3ErythemaRaw).map (fun d => dictGetD d "features" (.strList [])) =
      some (.strList ["erythema"]) ∧
    (analyzeOne c3ErythemaRaw).map (fun r => r.detected_features) =
      some (.strList []) :=
  ⟨rfl, rfl⟩

/-- C4_counterexample: a live timeline entry whose structured block carries
risk level `Low` is persisted by `save_live_session` with risk level `low`
but confidence `0.85`, not the claimed `0.75` — the live path stores the
constant `0.85` whatever the risk level. -/
theorem C4_live_low_risk_gets_085 :
    (live_save_entry c4LiveLowEntry).risk_level = "low" ∧
    (live_save_entry c4LiveLowEntry).confidence_score = 0.85 ∧
    (live_save_entry c4LiveLowEntry).confidence_score ≠ 0.75 := by
  refine ⟨rfl, rfl, ?_⟩
  rw [show (live_save_entry c4LiveLowEntry).confidence_score = 0.85 from rfl]
  norm_num

/-- C4 (amended): on the file path, whenever `_parse_analysis` returns a
dictionary, the risk level determines the stored confidence (high → 0.85,
medium → 0.80, low → 0.75); on the live path, every persisted Finding has
confidence 0.85 regardless of risk level. -/
theorem C4_confidence_bands :
    (∀ raw d, parse_analysis raw = some d →
      (dictGetD d "risk_level" .pnone = .str "high" ∧
        dictGetD d "confidence" (.rat 0.75) = .rat 0.85) ∨
      (dictGetD d "risk_level" .pnone = .str "medium" ∧
        dictGetD d "confidence" (.rat 0.75) = .rat 0.80) ∨
      (dictGetD d "risk_level" .pnone = .str "low" ∧
        dictGetD d "confidence" (.rat 0.75) = .rat 0.75)) ∧
    (∀ entry, (live_save_entry entry).confidence_score = 0.85) := by
  constructor
  · intro raw d h
    unfold parse_analysis at h
    split at h
    · rw [Option.some_inj] at h
      subst h
      exact Or.inr (Or.inr ⟨rfl, rfl⟩)
    · split at h
      · rw [Option.some_inj] at h
        subst h
        unfold parseAnalysisDict
        split
        · exact Or.inl ⟨rfl, rfl⟩
        · split
          · exact Or.inr (Or.inl ⟨rfl, rfl⟩)
          · exact Or.inr (Or.inr ⟨rfl, rfl⟩)
      · simp at h
  · intro entry
    unfold live_save_entry
    split
    · rfl
    · rfl

/-- C4_witness: the amended confidence property instantiated at the empty
raw output (whose parse is the default dictionary) and at a concrete live
entry. -/
theorem C4_confidence_bands_witness :
    ((dictGetD parseAnalysisInit "risk_level" .pnone = .str "high" ∧
       dictGetD parseAnalysisInit "confidence" (.rat 0.75) = .rat 0.85) ∨
     (dictGetD parseAnalysisInit "risk_level" .pnone = .str "medium" ∧
       dictGetD parseAnalysisInit "confidence" (.rat 0.75) = .rat 0.80) ∨
     (dictGetD parseAnalysisInit "risk_level" .pnone = .str "low" ∧
       dictGetD parseAnalysisInit "confidence" (.rat 0.75) = .rat 0.75)) ∧
    (live_save_entry c4LiveFreeEntry).confidence_score = 0.85 :=
  ⟨C4_confidence_bands.1 "" parseAnalysisInit rfl,
   C4_confidence_bands.2 c4LiveFreeEntry⟩

/-- C5_counterexample: running `generate_summary` a second time on the
unchanged Finding set of a session that already holds its summary row does
not succeed and replace the prior summary — the insert violates the
one-summary-per-session unique constraint and the run fails. -/
theorem C5_second_run_hits_unique_constraint :
    generate_summary "s1" [c5Row] [mkSummaryRow "s1" [c5Row]] =
      .error .uniqueViolation := rfl

/-- C5 (amended): on a non-empty unchanged Finding set the summary
computation is deterministic — both runs build the identical
`mkSummaryRow`, hence identical `key_findings` in content, order and count —
but the second run fails the one-summary-per-session unique constraint
instead of replacing the prior summary. -/
theorem C5_rerun_deterministic_but_fails :
    ∀ (sessionId : String) (analyses : List FindingRow), analyses ≠ [] →
      generate_summary sessionId analyses [] =
        .ok (mkSummaryRow sessionId analyses, [mkSummaryRow sessionId analyses]) ∧
      generate_summary sessionId analyses [mkSummaryRow sessionId analyses] =
        .error .uniqueViolation := by
  intro sid analyses h
  constructor
  · unfold generate_summary
    rw [if_neg h, if_neg (by simp)]
    rfl
  · unfold generate_summary
    rw [if_neg h, if_pos (by simp [mkSummaryRow])]

/-- C5_witness: the amended summary-rerun property instantiated at one
medium-risk analysis row. -/
theorem C5_rerun_deterministic_but_fails_witness :
    generate_summary "s1" [c5Row] [] =
      .ok (mkSummaryRow "s1" [c5Row], [mkSummaryRow "s1" [c5Row]]) ∧
    generate_summary "s1" [c5Row] [mkSummaryRow "s1" [c5Row]] =
      .error .uniqueViolation :=
  C5_rerun_deterministic_but_fails "s1" [c5Row] (by decide)

/-- C6_counterexample: the export archives of the two paths do not contain
the same entry set — the live path writes `findings.csv` and `report.txt`,
which the file path never writes, and the file path writes
`frame_analysis.json`, which the live path never writes. -/
theorem C6_entry_sets_differ :
    "findings.csv" ∈ save_live_session_entries false [] ∧
    "findings.csv" ∉ create_export_bundle_entries true true ∧
    "report.txt" ∈ save_live_session_entries false [] ∧
    "report.txt" ∉ create_export_bundle_entries true true ∧
    "frame_analysis.json" ∈ create_export_bundle_entries true true ∧
    "frame_analysis.json" ∉ save_live_session_entries false [] := by
  decide

/-- C6 (amended): the live-path archive has the fixed entry set
`metadata.json, summary.json, findings.csv, findings.json, report.txt`
(plus a `frames/` directory when requested); the file-path archive instead
always contains `frame_analysis.json` and `metadata.json` and never
`findings.csv`, `report.txt` or `summary.json` — the two paths do not share
one fixed entry set. -/
theorem C6_export_entry_sets :
    (∀ savedFramePaths, save_live_session_entries false savedFramePaths =
      ["metadata.json", "summary.json", "findings.csv", "findings.json",
       "report.txt"]) ∧
    (∀ hasVideo hasSummary,
      "findings.csv" ∉ create_export_bundle_entries hasVideo hasSummary ∧
      "report.txt" ∉ create_export_bundle_entries hasVideo hasSummary ∧
      "summary.json" ∉ create_export_bundle_entries hasVideo hasSummary ∧
      "frame_analysis.json" ∈ create_export_bundle_entries hasVideo hasSummary ∧
      "metadata.json" ∈ create_export_bundle_entries hasVideo hasSummary) := by
  constructor
  · intro ps
    simp [save_live_session_entries]
  · intro hasVideo hasSummary
    cases hasVideo <;> cases hasSummary <;> decide

/-- C7_counterexample: a raw text with a four-field block and an empty
Finding field is rejected by the gi-path Extractor, but the file path's
`_parse_analysis` performs no content validation: `analyze_frames_batch`
silently persists it as a populated Finding with empty finding text and
risk level `high`. -/
theorem C7_video_path_stores_empty_finding :
    extract_structured_answer c7EmptyFindingRaw.data = [] ∧
    analyzeOne c7EmptyFindingRaw = some
      { finding := .str "", anatomical_location := .str "Antrum",
        risk_level := .str "high", confidence_score := .rat 0.85,
        detected_features := .strList [], suggested_action := .str "Targeted biopsy",
        raw_output := c7EmptyFindingRaw } :=
  ⟨rfl, rfl⟩

/-- C7 (amended): on the gi path, whenever the structured block is located
but its Finding field is empty, shorter than 3 characters, or contains
prompt-identifying vocabulary, `extract_structured_answer` returns the
rejection (empty string); the file path's `_parse_analysis` performs no such
validation. -/
theorem C7_gi_rejects_invalid_finding :
    ∀ (text g1 g2 g3 g4 : List Char),
      reSearch giPattern (clean_medgemma_output text) = some [g1, g2, g3, g4] →
      (pyStrip g1 = [] ∨ (pyStrip g1).length < 3) ∨ giArtifactHit (pyStrip g1) = true →
      extract_structured_answer text = [] := by
  intro text g1 g2 g3 g4 hsearch hinv
  unfold extract_structured_answer
  rw [hsearch]
  show extractValidated g1 g2 g3 g4 = []
  rcases hinv with h | h <;> simp [extractValidated, h]

/-- C7_witness: the gi-path rejection property instantiated at the concrete
empty-Finding text and its captured groups. -/
theorem C7_gi_rejects_invalid_finding_witness :
    extract_structured_answer c7EmptyFindingRaw.data = [] :=
  C7_gi_rejects_invalid_finding c7EmptyFindingRaw.data
    [] "Antrum".data "High".data "Targeted biopsy".data
    (by decide) (Or.inl (Or.inl rfl))

/-- C8: on the unfilled label skeleton the cleaning stage removes the whole
empty template and the Extractor returns the rejection (empty string), never
a populated Finding. -/
theorem C8_skeleton_is_rejected :
    clean_medgemma_output c8Skeleton.data = [] ∧
    extract_structured_answer c8Skeleton.data = [] :=
  ⟨rfl, rfl⟩

/-- C9: a 30-second source at 30 fps sampled at a target rate of 1 fps has
sampling interval 30 and yields exactly 30 sampled frames with sequential
indices 0 … 29 and formatted timestamps 00:00:00.000 … 00:00:29.000. -/
theorem C9_thirty_second_source_sampling :
    video_frame_interval 30 1 = 30 ∧
    extract_frames_samples 900 30 (video_frame_interval 30 1) =
      [⟨0, 0, "00:00:00.000"⟩, ⟨1, 1000, "00:00:01.000"⟩,
       ⟨2, 2000, "00:00:02.000"⟩, ⟨3, 3000, "00:00:03.000"⟩,
       ⟨4, 4000, "00:00:04.000"⟩, ⟨5, 5000, "00:00:05.000"⟩,
       ⟨6, 6000, "00:00:06.000"⟩, ⟨7, 7000, "00:00:07.000"⟩,
       ⟨8, 8000, "00:00:08.000"⟩, ⟨9, 9000, "00:00:09.000"⟩,
       ⟨10, 10000, "00:00:10.000"⟩, ⟨11, 11000, "00:00:11.000"⟩,
       ⟨12, 12000, "00:00:12.000"⟩, ⟨13, 13000, "00:00:13.000"⟩,
       ⟨14, 14000, "00:00:14.000"⟩, ⟨15, 15000, "00:00:15.000"⟩,
       ⟨16, 16000, "00:00:16.000"⟩, ⟨17, 17000, "00:00:17.000"⟩,
       ⟨18, 18000, "00:00:18.000"⟩, ⟨19, 19000, "00:00:19.000"⟩,
       ⟨20, 20000, "00:00:20.000"⟩, ⟨21, 21000, "00:00:21.000"⟩,
       ⟨22, 22000, "00:00:22.000"⟩, ⟨23, 23000, "00:00:23.000"⟩,
       ⟨24, 24000, "00:00:24.000"⟩, ⟨25, 25000, "00:00:25.000"⟩,
       ⟨26, 26000, "00:00:26.000"⟩, ⟨27, 27000, "00:00:27.000"⟩,
       ⟨28, 28000, "00:00:28.000"⟩, ⟨29, 29000, "00:00:29.000"⟩] :=
  ⟨rfl, rfl⟩

/-- C10: every buffered live timeline entry on which the Extractor rejects
is persisted with finding text equal to the first 500 characters of the raw
entry, location `Unknown`, risk level `low` and an empty suggested action —
in particular an unstructured fallback entry is never stored with risk
`medium` or `high`. -/
theorem C10_unstructured_fallback_fields :
    ∀ entry : String, extract_structured_answer entry.data = [] →
      live_save_entry entry =
        { finding := (entry.data.take 500).asString
          anatomical_location := "Unknown"
          risk_level := "low"
          suggested_action := ""
          raw_output := entry
          confidence_score := 0.85 } := by
  intro entry h
  unfold live_save_entry
  rw [if_neg (fun hc => hc h)]

/-- C10_witness: the fallback property instantiated at a concrete free-text
timeline entry. -/
theorem C10_unstructured_fallback_fields_witness :
    live_save_entry c10FreeEntry =
      { finding := (c10FreeEntry.data.take 500).asString
        anatomical_location := "Unknown"
        risk_level := "low"
        suggested_action := ""
        raw_output := c10FreeEntry
        confidence_score := 0.85 } :=
  C10_unstructured_fallback_fields c10FreeEntry (by decide)
